import Mathlib

/-!
Shallow embedding of the MOHRE document intake pipeline (rt-uae-dev/MOHRE_AI)
and proofs about its classification, cropping, OCR-selection, orientation and
field-validation logic.

Python strings are modelled as `List Char` (`PyStr`); Python `Optional[str]`
becomes `Option PyStr`; a raised exception becomes `Except.error`.  Pure
helpers of the source become Lean functions with the same names; calls into
external services (Document AI, Google Vision, Gemini, YOLO) are passed in as
explicit oracle arguments so the surrounding decision logic can be stated and
proved exactly as written in the source.
-/

namespace Mohre

/-- Python `str` as a list of characters. -/
abbrev PyStr := List Char

/-- True when `pat` matches at the head of `hay` (helper for substring search). -/
def leadMatch : PyStr → PyStr → Bool
  | _, [] => true
  | [], _ :: _ => false
  | a :: as, b :: bs => a == b && leadMatch as bs

/-- Python `pat in hay`: substring containment on strings. -/
def containsSub : PyStr → PyStr → Bool
  | hay, pat =>
    if leadMatch hay pat then true
    else
      match hay with
      | [] => false
      | _ :: t => containsSub t pat

/-- Python `s.startswith('784')`. -/
def startsWith784 : PyStr → Bool
  | '7' :: '8' :: '4' :: _ => true
  | _ => false

/-- Python `s.lstrip('0')`: drop leading `'0'` characters. -/
def lstripZeros (s : PyStr) : PyStr := s.dropWhile (fun c => c == '0')

/-- Arabic-Indic to Western digit replacement table of
`attestation_utils.validate_attestation_numbers`, in source (dict insertion)
order. -/
def arabicToWesternPairs : List (Char × Char) :=
  [('٠', '0'), ('١', '1'), ('٢', '2'), ('٣', '3'), ('٤', '4'),
   ('٥', '5'), ('٦', '6'), ('٧', '7'), ('٨', '8'), ('٩', '9')]

/-- Python `s.replace(a, w)` for single-character `a`, `w`: a character map. -/
def pyReplaceChar (a w : Char) (s : PyStr) : PyStr :=
  s.map (fun c => if c == a then w else c)

/-- The normalization loop of `validate_attestation_numbers`: sequentially
replace each Arabic-Indic digit glyph by its Western counterpart. -/
def normalizeOcr (s : PyStr) : PyStr :=
  arabicToWesternPairs.foldl (fun acc p => pyReplaceChar p.1 p.2 acc) s

/-- Per-character action of `normalizeOcr` (the ten replacements applied in
sequence to one character). -/
def normChar (c : Char) : Char :=
  arabicToWesternPairs.foldl (fun acc p => if acc == p.1 then p.2 else acc) c

/-- Python `c.isdigit()` restricted to the digit alphabets this code base
manipulates: ASCII digits and the Arabic-Indic glyphs of
`arabicToWesternPairs`. -/
def pyIsDigit (c : Char) : Bool :=
  c.isDigit || arabicToWesternPairs.any (fun p => p.1 == c)

/-- Python `s.isdigit()`: nonempty and every character a digit. -/
def isDigitStr (s : PyStr) : Bool :=
  !s.isEmpty && s.all pyIsDigit

/-- The Western digits, used to state the normalization claim. -/
def westernDigits : List Char :=
  ['0', '1', '2', '3', '4', '5', '6', '7', '8', '9']

/-- The Arabic-Indic glyph of a Western digit (inverse lookup in the source's
replacement table); characters that are not Western digits are unchanged. -/
def westernToArabic (c : Char) : Char :=
  ((arabicToWesternPairs.find? (fun p => p.2 == c)).map (fun p => p.1)).getD c

/-- Helper `clean_attestation_number` of
`attestation_utils.validate_attestation_numbers` (src/src/attestation_utils.py
lines 36-69): strip leading zeros, require an all-digit string within the
length bounds; the leading-zero branch at the end only logs. -/
def clean_attestation_number (numberStr : Option PyStr)
    (minLength maxLength : Nat) : Option PyStr :=
  match numberStr with
  | none => none
  | some s =>
    if s.isEmpty || s == "null".data then none
    else
      let cleaned := lstripZeros s
      if !isDigitStr cleaned then none
      else if cleaned.length < minLength || cleaned.length > maxLength then none
      else some cleaned

/-- The `extracted_numbers` dict of `validate_attestation_numbers`: each key
may be absent (`none`) or present with an optional value. -/
structure ExtractedNumbers where
  att1 : Option (Option PyStr)
  att2 : Option (Option PyStr)

/-- Result of `validate_attestation_numbers`: the validated values for
`Attestation Number 1` and `Attestation Number 2`. -/
structure ValidatedNumbers where
  att1 : Option PyStr
  att2 : Option PyStr
deriving DecidableEq

/-- `attestation_utils.validate_attestation_numbers`
(src/src/attestation_utils.py lines 10-115).  Number 1 is cleaned with bounds
5-15 and kept whether or not it occurs in the normalized OCR text (both source
branches assign it); number 2 is cleaned with bounds 6-7 and, when absent from
the normalized OCR text, kept only if it does not start with `784`. -/
def validate_attestation_numbers (ocrText : PyStr)
    (extracted : ExtractedNumbers) : ValidatedNumbers :=
  let normalizedOcr := normalizeOcr ocrText
  let v1 : Option PyStr :=
    match extracted.att1 with
    | none => none
    | some num1 =>
      match clean_attestation_number num1 5 15 with
      | none => none
      | some cleaned1 =>
        if containsSub normalizedOcr cleaned1 then some cleaned1
        else some cleaned1
  let v2 : Option PyStr :=
    match extracted.att2 with
    | none => none
    | some num2 =>
      match clean_attestation_number num2 6 7 with
      | none => none
      | some cleaned2 =>
        if containsSub normalizedOcr cleaned2 then some cleaned2
        else if !startsWith784 cleaned2 then some cleaned2
        else none
  { att1 := v1, att2 := v2 }

/-- A character counts for the regex word boundary `\b`: letters, digits and
underscore (with the Arabic-Indic digits, which are word characters too). -/
def pyWordChar (c : Char) : Bool :=
  c.isAlpha || pyIsDigit c || c == '_'

/-- Maximal runs of characters satisfying `p`, in order, separators dropped
(`cur` accumulates the current run reversed). -/
def runsByAux (p : Char → Bool) : PyStr → PyStr → List PyStr
  | cur, [] => if cur.isEmpty then [] else [cur.reverse]
  | cur, c :: t =>
    if p c then runsByAux p (c :: cur) t
    else if cur.isEmpty then runsByAux p [] t
    else cur.reverse :: runsByAux p [] t

/-- Maximal runs of characters satisfying `p` in `s`. -/
def runsBy (p : Char → Bool) (s : PyStr) : List PyStr :=
  runsByAux p [] s

/-- `re.findall(r'\b\d{m,n}\b', text)`: because digits are word characters, a
match must span a full maximal word-character run, so the matches are exactly
the maximal word runs that are all digits with length in `[m, n]`. -/
def findDigitRuns (minLen maxLen : Nat) (text : PyStr) : List PyStr :=
  (runsBy pyWordChar text).filter
    (fun r => r.all pyIsDigit && minLen ≤ r.length && r.length ≤ maxLen)

/-- Exception message of `extract_attestation_numbers_from_ocr`. -/
def ocrTextRequiredMsg : PyStr :=
  "OCR text is required for number extraction".data

/-- `attestation_utils.extract_attestation_numbers_from_ocr`
(src/src/attestation_utils.py lines 117-143): raise `ValueError` on empty
text; otherwise collect 10-15 digit runs and 7-digit runs, and drop from each
list the numbers starting with `784`. -/
def extract_attestation_numbers_from_ocr (ocrText : PyStr) :
    Except PyStr (List PyStr × List PyStr) :=
  if ocrText.isEmpty then .error ocrTextRequiredMsg
  else
    let longNumbers := findDigitRuns 10 15 ocrText
    let sevenDigitNumbers := findDigitRuns 7 7 ocrText
    let filteredLong := longNumbers.filter (fun num => !startsWith784 num)
    let filteredSeven := sevenDigitNumbers.filter (fun num => !startsWith784 num)
    .ok (filteredLong, filteredSeven)

/-- Result dict of `yolo_crop_ocr_pipeline.run_enhanced_ocr`.  The source's
float confidence is carried as a rational; it is only stored, never computed
with, in `run_enhanced_ocr`. -/
structure OcrResult where
  ocr_text : String
  confidence : ℚ
  document_type : String
  extracted_fields : List (String × String)
  ocr_method : String
  page_count : Nat

/-- Outcome of the call `DOCUMENT_AI_PROCESSOR.process_document(image_path)`:
a successful result dict, a result dict containing an `error` key, or a
raised exception. -/
inductive DocAiOutcome where
  | ok (fullText : String) (confidence : ℚ) (pages : Nat)
  | failure (msg : String)
  | raised (msg : String)

/-- The dict `run_enhanced_ocr` returns when Document AI is unavailable or
failed (src/src/yolo_crop_ocr_pipeline.py lines 72-80). -/
def documentAiUnavailableResult : OcrResult :=
  { ocr_text := ""
    confidence := 0
    document_type := "unknown"
    extracted_fields := []
    ocr_method := "document_ai_unavailable"
    page_count := 0 }

/-- `yolo_crop_ocr_pipeline.run_enhanced_ocr`
(src/src/yolo_crop_ocr_pipeline.py lines 30-80).  `docAiAvailable` models the
module flag `DOCUMENT_AI_AVAILABLE`, `docAiEnabled` the processor's `enabled`
attribute, `outcome` the `process_document` call, and the two function
arguments the processor's `get_document_type` and
`extract_fields_by_document_type`.  The source contains no call to
`run_google_vision_ocr` and no confidence comparison: a successful Document AI
result is returned as-is and every other case yields
`documentAiUnavailableResult`. -/
def run_enhanced_ocr (docAiAvailable docAiEnabled : Bool)
    (outcome : DocAiOutcome)
    (getDocumentType : String → String)
    (extractFieldsByDocumentType : String → List (String × String)) :
    OcrResult :=
  if docAiAvailable && docAiEnabled then
    match outcome with
    | .ok fullText confidence pages =>
      { ocr_text := fullText
        confidence := confidence
        document_type := getDocumentType fullText
        extracted_fields := extractFieldsByDocumentType fullText
        ocr_method := "document_ai"
        page_count := pages }
    | .failure _ => documentAiUnavailableResult
    | .raised _ => documentAiUnavailableResult
  else documentAiUnavailableResult

/-- One YOLO detection: optional class id (`box.cls`) and the `xyxy`
coordinates, already truncated to integers as by `map(int, ...)`. -/
structure YoloBox where
  cls : Option Nat
  x1 : Int
  y1 : Int
  x2 : Int
  y2 : Int

/-- ASCII lowering, the effect of Python `label.lower()` on the model's class
names. -/
def pyLower (s : PyStr) : PyStr :=
  s.map (fun c => if 'A' ≤ c && c ≤ 'Z' then Char.ofNat (c.toNat + 32) else c)

/-- `yolo_crop_ocr_pipeline.run_yolo_crop`
(src/src/yolo_crop_ocr_pipeline.py lines 107-162), reduced to the crop
decision: raise when the image is unreadable or no boxes are detected;
otherwise collect the labels of boxes carrying a class id through the model's
`names` mapping, test whether any label contains `attestation`, and in either
branch crop the coordinates of `results.boxes[0]` — the first box. -/
def run_yolo_crop (imageReadable : Bool) (boxes : List YoloBox)
    (names : Nat → PyStr) : Except String (Int × Int × Int × Int) :=
  if !imageReadable then .error "could not read image"
  else
    match boxes with
    | [] => .error "no objects detected in image"
    | b0 :: _ =>
      let detectedLabels := boxes.filterMap (fun b => b.cls.map names)
      let hasAttestationLabel :=
        detectedLabels.any (fun label => containsSub (pyLower label) "attestation".data)
      if hasAttestationLabel then .ok (b0.x1, b0.y1, b0.x2, b0.y2)
      else .ok (b0.x1, b0.y1, b0.x2, b0.y2)

/-- One entry of `classified_images` in `main_pipeline.classify_images`: the
image path, the (mutable) document-type label and the file name. -/
structure ClassifiedImage where
  path : String
  label : String
  filename : String
deriving DecidableEq

/-- Labels counting as an attestation page in the reconciliation pass. -/
def attestationLabels : List String := ["certificate_attestation", "attestation_label"]

/-- Labels eligible for retargeting in the reconciliation pass. -/
def reconcileEligibleLabels : List String := ["emirates_id", "emirates_id_2", "unknown"]

/-- The certificate/attestation reconciliation pass of
`main_pipeline.classify_images` (src/src/main_pipeline.py lines 112-119): when
some page is labeled `certificate` and no page carries an attestation label,
every page labeled `emirates_id`, `emirates_id_2` or `unknown` is relabeled
`attestation_label`; otherwise the batch is left unchanged. -/
def reconcileClassifiedImages (classifiedImages : List ClassifiedImage) :
    List ClassifiedImage :=
  let hasCertificate := classifiedImages.any (fun img => img.label == "certificate")
  let hasAttestation :=
    classifiedImages.any (fun img => img.label ∈ attestationLabels)
  if hasCertificate && !hasAttestation then
    classifiedImages.map (fun img =>
      if img.label ∈ reconcileEligibleLabels then
        { img with label := "attestation_label" }
      else img)
  else classifiedImages

/-- `google_ai_rotation.ROTATABLE_CLASSES` (src/src/google_ai_rotation.py
line 21). -/
def ROTATABLE_CLASSES : List String :=
  ["passport_1", "passport_2", "personal_photo", "certificate"]

/-- Parsed decision of `detect_orientation_with_gemini`: the error branches
of the source all produce a dict with an `error` key. -/
structure OrientationDecision where
  rotation_needed : Bool
  rotation_angle : Int
  reason : String
  error : Option String

/-- `google_ai_rotation.rotate_image_if_needed_google_ai`
(src/src/google_ai_rotation.py lines 192-228).  `judge` models the call to
`detect_orientation_with_gemini` and `rotateImage` the call to `rotate_image`;
the returned flag records whether the judgment service was invoked.  A label
outside `ROTATABLE_CLASSES` returns the original path at once, before any
service call. -/
def rotate_image_if_needed_google_ai (imagePath docClass : String)
    (judge : Unit → OrientationDecision)
    (rotateImage : Int → String) : String × Bool :=
  if docClass ∉ ROTATABLE_CLASSES then (imagePath, false)
  else
    let decision := judge ()
    match decision.error with
    | some _ => (imagePath, true)
    | none =>
      if !decision.rotation_needed then (imagePath, true)
      else if decision.rotation_angle == 0 then (imagePath, true)
      else (rotateImage decision.rotation_angle, true)

/-- Result dict of
`simple_text_orientation_detector.detect_text_orientation_simple`; the
source's `confidence` is `float(best_text_len)`, carried here as the length
itself. -/
structure TextOrientationResult where
  rotation_needed : Bool
  rotation_angle : Nat
  confidence : Nat
  detected_text_length : Nat
deriving DecidableEq

/-- The four candidate rotations tried by the fallback detector, in loop
order. -/
def orientationAngles : List Nat := [0, 90, 180, 270]

/-- `simple_text_orientation_detector.detect_text_orientation_simple`
(src/src/simple_text_orientation_detector.py lines 12-95).  `imageReadable`
models the `cv2.imread` check and `textLen` the length of the text
`run_google_vision_ocr` recognizes at each candidate rotation.  The loop keeps
the first angle whose text is strictly longer than the best so far, starting
from angle 0 with length 0. -/
def detect_text_orientation_simple (imageReadable : Bool)
    (textLen : Nat → Nat) : TextOrientationResult :=
  if !imageReadable then
    { rotation_needed := false, rotation_angle := 0
      confidence := 0, detected_text_length := 0 }
  else
    let best := orientationAngles.foldl
      (fun acc angle => if textLen angle > acc.2 then (angle, textLen angle) else acc)
      (0, 0)
    { rotation_needed := best.1 != 0
      rotation_angle := best.1
      confidence := best.2
      detected_text_length := best.2 }

/-- Python `full_name.split()`: tokens separated by runs of whitespace. -/
def pySplitWs (s : PyStr) : List PyStr :=
  runsBy (fun c => !(c == ' ' || c == '\t' || c == '\n' || c == '\r')) s

/-- The display-name derivation of `main_pipeline.save_results`
(src/src/main_pipeline.py lines 229-231):
`full_name.split()[0] if full_name else "Unknown"`, where a missing
`Full Name` key defaults to `""`.  `none` models the `IndexError` Python
raises when a nonempty name has no whitespace-delimited token. -/
def firstNameOf (fullName : PyStr) : Option PyStr :=
  if fullName.isEmpty then some "Unknown".data
  else (pySplitWs fullName).head?

/-! Helper lemmas about `clean_attestation_number`. -/

theorem clean_attestation_number_eq_some {s c : PyStr} {m M : Nat}
    (h : clean_attestation_number (some s) m M = some c) :
    c = lstripZeros s ∧ isDigitStr c = true ∧ m ≤ c.length ∧ c.length ≤ M := by
  simp only [clean_attestation_number] at h
  split_ifs at h with h1 h2 h3
  simp only [Option.some.injEq] at h
  subst h
  rw [Bool.not_eq_true'] at h2
  simp only [Bool.or_eq_true, decide_eq_true_eq, not_or, not_lt] at h3
  exact ⟨rfl, Bool.ne_false_iff.mp h2, by omega, by omega⟩

theorem clean_attestation_number_eq_none {s : PyStr} {m M : Nat}
    (h : ¬(isDigitStr (lstripZeros s) = true ∧ m ≤ (lstripZeros s).length ∧
          (lstripZeros s).length ≤ M)) :
    clean_attestation_number (some s) m M = none := by
  cases hc : clean_attestation_number (some s) m M with
  | none => rfl
  | some c =>
    obtain ⟨hcl, hd, hm, hM⟩ := clean_attestation_number_eq_some hc
    subst hcl
    exact absurd ⟨hd, hm, hM⟩ h

theorem clean_attestation_number_some_of {s : PyStr} {m M : Nat}
    (hd : isDigitStr (lstripZeros s) = true)
    (hm : m ≤ (lstripZeros s).length) (hM : (lstripZeros s).length ≤ M) :
    clean_attestation_number (some s) m M = some (lstripZeros s) := by
  have hs : s.isEmpty = false := by
    cases s with
    | nil => exact absurd hd (by decide)
    | cons a t => rfl
  have hnull : (s == "null".data) = false := by
    by_cases hb : s = "null".data
    · subst hb; exact absurd hd (by decide)
    · simpa using hb
  have hcond : (decide ((lstripZeros s).length < m) ||
      decide ((lstripZeros s).length > M)) = false := by
    simp only [Bool.or_eq_false_iff, decide_eq_false_iff_not, not_lt]
    exact ⟨by omega, by omega⟩
  simp [clean_attestation_number, hs, hnull, hd, hcond]

/-- Claim C5: Attestation Number 1 is set to null whenever the candidate's
leading-zero-stripped value is not an all-digit string or has length outside
`[5, 15]`; a stripped all-digit value of length 5 to 15 is kept for every OCR
text, in particular when it does not occur in the normalized OCR text. -/
theorem validate_attestation_number1_spec (ocrText s : PyStr)
    (att2 : Option (Option PyStr)) :
    ((¬ isDigitStr (lstripZeros s) = true ∨ (lstripZeros s).length < 5 ∨
        15 < (lstripZeros s).length) →
      (validate_attestation_numbers ocrText ⟨some (some s), att2⟩).att1 = none)
    ∧ (isDigitStr (lstripZeros s) = true → 5 ≤ (lstripZeros s).length →
        (lstripZeros s).length ≤ 15 →
      (validate_attestation_numbers ocrText ⟨some (some s), att2⟩).att1 =
        some (lstripZeros s)) := by
  constructor
  · intro h
    have hc : clean_attestation_number (some s) 5 15 = none := by
      apply clean_attestation_number_eq_none
      rintro ⟨hd, hm, hM⟩
      rcases h with h | h | h
      · exact h hd
      · omega
      · omega
    simp [validate_attestation_numbers, hc]
  · intro h1 h2 h3
    have hc := clean_attestation_number_some_of (m := 5) (M := 15) h1 h2 h3
    simp [validate_attestation_numbers, hc]

/-- Witness for C5: the candidate `0012345678` (absent from the OCR text
`no match`) is stripped to the 8-digit `12345678` and kept. -/
theorem validate_attestation_number1_witness :
    (validate_attestation_numbers "no match".data
      ⟨some (some "0012345678".data), none⟩).att1 = some "12345678".data :=
  (validate_attestation_number1_spec "no match".data "0012345678".data none).2
    (by decide) (by decide) (by decide)

/-- Claim C4: an Attestation Number 2 candidate is accepted only when its
leading-zero-stripped value is an all-digit string of length 6 or 7; a cleaned
value absent from the digit-normalized OCR text is dropped when it starts with
`784` and kept otherwise. -/
theorem validate_attestation_number2_spec (ocrText s : PyStr)
    (att1 : Option (Option PyStr)) :
    (∀ c, (validate_attestation_numbers ocrText ⟨att1, some (some s)⟩).att2 = some c →
        c = lstripZeros s ∧ isDigitStr c = true ∧ (c.length = 6 ∨ c.length = 7))
    ∧ (containsSub (normalizeOcr ocrText) (lstripZeros s) = false →
        startsWith784 (lstripZeros s) = true →
        (validate_attestation_numbers ocrText ⟨att1, some (some s)⟩).att2 = none)
    ∧ (∀ c, clean_attestation_number (some s) 6 7 = some c →
        containsSub (normalizeOcr ocrText) c = false →
        startsWith784 c = false →
        (validate_attestation_numbers ocrText ⟨att1, some (some s)⟩).att2 = some c) := by
  refine ⟨?_, ?_, ?_⟩
  · intro c h
    cases hc : clean_attestation_number (some s) 6 7 with
    | none => simp [validate_attestation_numbers, hc] at h
    | some cl =>
      obtain ⟨hcl, hd, hm, hM⟩ := clean_attestation_number_eq_some hc
      have hcc : c = cl := by
        simp only [validate_attestation_numbers, hc] at h
        split_ifs at h <;> simp_all
      subst hcc
      subst hcl
      exact ⟨rfl, hd, by omega⟩
  · intro hno h784
    cases hc : clean_attestation_number (some s) 6 7 with
    | none => simp [validate_attestation_numbers, hc]
    | some cl =>
      obtain ⟨hcl, _, _, _⟩ := clean_attestation_number_eq_some hc
      subst hcl
      simp [validate_attestation_numbers, hc, hno, h784]
  · intro c hc hno h784
    simp [validate_attestation_numbers, hc, hno, h784]

/-- Witness for C4: the candidate `1234567` is a 7-digit string absent from
the OCR text `no match` that does not start with `784`, and it is kept. -/
theorem validate_attestation_number2_witness :
    (validate_attestation_numbers "no match".data
      ⟨none, some (some "1234567".data)⟩).att2 = some "1234567".data :=
  (validate_attestation_number2_spec "no match".data "1234567".data none).2.2
    "1234567".data (by decide) (by decide) (by decide)

/-! Lemmas about the numeral normalization of `validate_attestation_numbers`. -/

theorem normalizeOcr_nil : normalizeOcr [] = [] := rfl

theorem normalizeOcr_cons (c : Char) (t : PyStr) :
    normalizeOcr (c :: t) = normChar c :: normalizeOcr t := by
  simp only [normalizeOcr, normChar, arabicToWesternPairs, List.foldl,
    pyReplaceChar, List.map_cons]

theorem normChar_westernToArabic {c : Char} (h : c ∈ westernDigits) :
    normChar (westernToArabic c) = c := by
  fin_cases h <;> rfl

theorem normChar_western {c : Char} (h : c ∈ westernDigits) :
    normChar c = c := by
  fin_cases h <;> rfl

/-- Claim C6: for every Western digit string, normalizing the text obtained by
replacing each digit with its Arabic-Indic glyph yields the same canonical
digit string as normalizing the Western-numeral text itself (namely the
original string), so the validation substring check matches either numeral
system. -/
theorem normalizeOcr_localized_digits_spec (s : PyStr)
    (h : ∀ c ∈ s, c ∈ westernDigits) :
    normalizeOcr (s.map westernToArabic) = normalizeOcr s ∧
      normalizeOcr s = s := by
  have key : ∀ t : PyStr, (∀ c ∈ t, c ∈ westernDigits) →
      normalizeOcr (t.map westernToArabic) = t ∧ normalizeOcr t = t := by
    intro t
    induction t with
    | nil => intro _; exact ⟨rfl, rfl⟩
    | cons a t ih =>
      intro ht
      have ha : a ∈ westernDigits := ht a (by simp)
      have ht' : ∀ c ∈ t, c ∈ westernDigits := fun c hc => ht c (by simp [hc])
      obtain ⟨ih1, ih2⟩ := ih ht'
      constructor
      · simp only [List.map_cons, normalizeOcr_cons,
          normChar_westernToArabic ha, ih1]
      · simp only [normalizeOcr_cons, normChar_western ha, ih2]
  obtain ⟨k1, k2⟩ := key s h
  exact ⟨k1.trans k2.symm, k2⟩

/-- Witness for C6: the digit string `784` round-trips through its
Arabic-Indic spelling `٧٨٤` to the same normalized form. -/
theorem normalizeOcr_localized_digits_witness :
    normalizeOcr ("784".data.map westernToArabic) = normalizeOcr "784".data ∧
      normalizeOcr "784".data = "784".data :=
  normalizeOcr_localized_digits_spec "784".data (by decide)

/-- Claim C1 (code bug): `run_enhanced_ocr` tags a successful Document AI
result `document_ai` regardless of confidence — at 0.9 as the claim states,
but also at the low confidence 0.2 used by the repository's own test
`test_low_confidence_triggers_google_vision` — and when Document AI is
unavailable it returns the `document_ai_unavailable` result, never the
`google_vision` tag those tests assert: the source contains no fallback to the
general-purpose engine. -/
theorem run_enhanced_ocr_no_fallback :
    (run_enhanced_ocr true true (.ok "doc ai text" (9/10) 1)
        (fun _ => "passport") (fun _ => [])).ocr_method = "document_ai"
    ∧ (run_enhanced_ocr true true (.ok "doc ai text" (2/10) 1)
        (fun _ => "passport") (fun _ => [])).ocr_method = "document_ai"
    ∧ (run_enhanced_ocr false true (.ok "doc ai text" (2/10) 1)
        (fun _ => "passport") (fun _ => [])).ocr_method = "document_ai_unavailable"
    ∧ ("document_ai" : String) ≠ "google_vision"
    ∧ ("document_ai_unavailable" : String) ≠ "google_vision" :=
  ⟨rfl, rfl, rfl, by decide, by decide⟩

/-- Counterexample for C2: with two detected boxes of which only the second is
labeled `attestation_label`, `run_yolo_crop` crops the first box's
coordinates `(0, 0, 10, 10)`, not the attestation box's `(20, 20, 30, 30)`. -/
theorem run_yolo_crop_attestation_second_box_counterexample :
    run_yolo_crop true
        [⟨some 0, 0, 0, 10, 10⟩, ⟨some 1, 20, 20, 30, 30⟩]
        (fun n => if n == 0 then "passport".data else "attestation_label".data)
      = .ok (0, 0, 10, 10)
    ∧ containsSub (pyLower "attestation_label".data) "attestation".data = true
    ∧ ((0, 0, 10, 10) : Int × Int × Int × Int) ≠ (20, 20, 30, 30) :=
  ⟨rfl, by decide, by decide⟩

/-- Claim C2 (amended): whenever the detector returns at least one box, the
region extractor crops the first box's coordinates — also when some box,
first or not, carries a label containing `attestation`; the attestation
branch differs only in logging. -/
theorem run_yolo_crop_crops_first_box (boxes : List YoloBox)
    (names : Nat → PyStr) (b0 : YoloBox) (rest : List YoloBox)
    (hb : boxes = b0 :: rest) :
    run_yolo_crop true boxes names = .ok (b0.x1, b0.y1, b0.x2, b0.y2) := by
  subst hb
  simp [run_yolo_crop]

/-- Witness for C2 (amended): a single detected box is cropped at its own
coordinates. -/
theorem run_yolo_crop_crops_first_box_witness :
    run_yolo_crop true [⟨some 0, 1, 2, 3, 4⟩] (fun _ => []) = .ok (1, 2, 3, 4) :=
  run_yolo_crop_crops_first_box _ _ ⟨some 0, 1, 2, 3, 4⟩ [] rfl

/-- Claim C3: in a batch with a `certificate` page and no attestation-labeled
page, the reconciliation pass relabels every `emirates_id`, `emirates_id_2` or
`unknown` page as `attestation_label` (so at least one page is relabeled when
one is eligible), and a batch with an attestation page or without a
certificate page is left unchanged. -/
theorem reconcileClassifiedImages_spec (imgs : List ClassifiedImage) :
    ((imgs.any (fun i => i.label == "certificate")) = true →
      (imgs.any (fun i => i.label ∈ attestationLabels)) = false →
      (reconcileClassifiedImages imgs).map (fun i => i.label) =
        imgs.map (fun i => if i.label ∈ reconcileEligibleLabels then
          "attestation_label" else i.label))
    ∧ ((imgs.any (fun i => i.label == "certificate")) = true →
      (imgs.any (fun i => i.label ∈ attestationLabels)) = false →
      (∃ i ∈ imgs, i.label ∈ reconcileEligibleLabels) →
      ∃ j ∈ reconcileClassifiedImages imgs, j.label = "attestation_label")
    ∧ ((imgs.any (fun i => i.label ∈ attestationLabels)) = true ∨
        (imgs.any (fun i => i.label == "certificate")) = false →
      reconcileClassifiedImages imgs = imgs) := by
  refine ⟨?_, ?_, ?_⟩
  · intro h1 h2
    simp only [reconcileClassifiedImages, h1, h2, Bool.not_false,
      Bool.and_self, if_true, List.map_map]
    apply List.map_congr_left
    intro a _
    by_cases ha : a.label ∈ reconcileEligibleLabels <;> simp [ha]
  · intro h1 h2 hex
    obtain ⟨i, hi, hie⟩ := hex
    have hmap : reconcileClassifiedImages imgs =
        imgs.map (fun img => if img.label ∈ reconcileEligibleLabels then
          { img with label := "attestation_label" } else img) := by
      simp only [reconcileClassifiedImages, h1, h2, Bool.not_false,
        Bool.and_self, if_true]
    refine ⟨{ i with label := "attestation_label" }, ?_, rfl⟩
    rw [hmap]
    exact List.mem_map.mpr ⟨i, hi, by simp [hie]⟩
  · intro h
    rcases h with h | h <;> simp [reconcileClassifiedImages, h]

/-- Witness for C3: a batch of one certificate page and one `emirates_id`
page gets the `emirates_id` page relabeled `attestation_label`. -/
theorem reconcileClassifiedImages_witness :
    ∃ j ∈ reconcileClassifiedImages
        [⟨"a.jpg", "certificate", "a.jpg"⟩, ⟨"b.jpg", "emirates_id", "b.jpg"⟩],
      j.label = "attestation_label" :=
  (reconcileClassifiedImages_spec
      [⟨"a.jpg", "certificate", "a.jpg"⟩, ⟨"b.jpg", "emirates_id", "b.jpg"⟩]).2.1
    (by decide) (by decide)
    ⟨⟨"b.jpg", "emirates_id", "b.jpg"⟩, by decide, by decide⟩

/-- Claim C7: for any document label outside the rotation whitelist, the
orientation corrector returns the original image path unchanged and never
invokes the orientation-judgment service. -/
theorem rotate_image_if_needed_skips_non_rotatable
    (imagePath docClass : String)
    (judge : Unit → OrientationDecision) (rotateImage : Int → String)
    (h : docClass ∉ ROTATABLE_CLASSES) :
    rotate_image_if_needed_google_ai imagePath docClass judge rotateImage =
      (imagePath, false) := by
  simp [rotate_image_if_needed_google_ai, h]

/-- Witness for C7: an `emirates_id` page is returned unchanged with the
judgment service not called, even though the judgment oracle would request a
90-degree rotation. -/
theorem rotate_image_if_needed_skips_non_rotatable_witness :
    rotate_image_if_needed_google_ai "image.jpg" "emirates_id"
      (fun _ => ⟨true, 90, "sideways", none⟩) (fun _ => "rotated.jpg") =
      ("image.jpg", false) :=
  rotate_image_if_needed_skips_non_rotatable "image.jpg" "emirates_id"
    (fun _ => ⟨true, 90, "sideways", none⟩) (fun _ => "rotated.jpg") (by decide)

theorem detect_text_orientation_simple_true (textLen : Nat → Nat) :
    detect_text_orientation_simple true textLen =
      (let best := orientationAngles.foldl
        (fun acc angle => if textLen angle > acc.2 then (angle, textLen angle) else acc)
        (0, 0)
      { rotation_needed := best.1 != 0, rotation_angle := best.1,
        confidence := best.2, detected_text_length := best.2 }) := rfl

/-- Claim C8: on a readable image the fallback orientation detector picks an
angle among the four candidates whose recognized text length is maximal,
picks 0 whenever 0 ties with the maximum, and reports rotation needed exactly
when the picked angle is nonzero. -/
theorem detect_text_orientation_simple_spec (textLen : Nat → Nat) :
    (detect_text_orientation_simple true textLen).rotation_angle ∈ orientationAngles
    ∧ (∀ a ∈ orientationAngles,
        textLen a ≤ textLen (detect_text_orientation_simple true textLen).rotation_angle)
    ∧ ((∀ a ∈ orientationAngles, textLen a ≤ textLen 0) →
        (detect_text_orientation_simple true textLen).rotation_angle = 0)
    ∧ ((detect_text_orientation_simple true textLen).rotation_needed = false ↔
        (detect_text_orientation_simple true textLen).rotation_angle = 0) := by
  rw [detect_text_orientation_simple_true]
  simp only [orientationAngles, List.foldl, List.mem_cons, List.not_mem_nil,
    or_false, forall_eq_or_imp, forall_eq]
  split_ifs <;>
    refine ⟨by simp, ?_, ?_, by simp⟩ <;> simp_all <;> omega

/-- Witness for C8: with equal text lengths at all four rotations the
detector keeps angle 0. -/
theorem detect_text_orientation_simple_witness :
    (detect_text_orientation_simple true (fun _ => 3)).rotation_angle = 0 :=
  (detect_text_orientation_simple_spec (fun _ => 3)).2.2.1 (by decide)

/-- Claim C9: the consolidation display name is `Unknown` for an absent or
empty `Full Name` (both reach this code as the empty string) and the first
whitespace-delimited token otherwise; `Yogeshkumar Sant` yields
`Yogeshkumar`. -/
theorem save_results_first_name_spec :
    firstNameOf [] = some "Unknown".data
    ∧ (∀ (s t : PyStr) (ts : List PyStr), pySplitWs s = t :: ts →
        firstNameOf s = some t)
    ∧ firstNameOf "Yogeshkumar Sant".data = some "Yogeshkumar".data := by
  refine ⟨rfl, ?_, by decide⟩
  intro s t ts h
  cases s with
  | nil => simp [pySplitWs, runsBy, runsByAux] at h
  | cons a u => simp [firstNameOf, h]

/-- Witness for C9: `Jane Doe` splits into two tokens and the prefix is the
first one. -/
theorem save_results_first_name_witness :
    firstNameOf "Jane Doe".data = some "Jane".data :=
  save_results_first_name_spec.2.1 "Jane Doe".data "Jane".data ["Doe".data]
    (by decide)

theorem isDigitStr_of_all {n : PyStr} (h : n.all pyIsDigit = true)
    (hlen : 1 ≤ n.length) : isDigitStr n = true := by
  cases n with
  | nil => simp at hlen
  | cons a t => simp [isDigitStr, h]

/-- Claim C10: `extract_attestation_numbers_from_ocr` raises exactly on empty
OCR text, and on success no returned number starts with `784`, the first list
holds all-digit strings of length 10 to 15 and the second all-digit strings of
length exactly 7. -/
theorem extract_attestation_numbers_spec :
    (∀ s : PyStr,
      (∃ e, extract_attestation_numbers_from_ocr s = .error e) ↔ s = [])
    ∧ (∀ (s : PyStr) (long seven : List PyStr),
        extract_attestation_numbers_from_ocr s = .ok (long, seven) →
        (∀ n ∈ long, startsWith784 n = false ∧ isDigitStr n = true ∧
          10 ≤ n.length ∧ n.length ≤ 15)
        ∧ (∀ n ∈ seven, startsWith784 n = false ∧ isDigitStr n = true ∧
          n.length = 7)) := by
  constructor
  · intro s
    constructor
    · rintro ⟨e, he⟩
      cases s with
      | nil => rfl
      | cons a t => simp [extract_attestation_numbers_from_ocr] at he
    · rintro rfl
      exact ⟨ocrTextRequiredMsg, rfl⟩
  · intro s long seven h
    cases s with
    | nil => simp [extract_attestation_numbers_from_ocr] at h
    | cons a t =>
      simp only [extract_attestation_numbers_from_ocr, List.isEmpty_cons,
        Bool.false_eq_true, if_false, Except.ok.injEq, Prod.mk.injEq] at h
      obtain ⟨hl, hs⟩ := h
      constructor
      · intro n hn
        rw [← hl] at hn
        simp only [findDigitRuns, List.mem_filter, Bool.and_eq_true,
          decide_eq_true_eq, Bool.not_eq_true'] at hn
        obtain ⟨⟨-, ⟨hd, h10⟩, h15⟩, h784⟩ := hn
        exact ⟨h784, isDigitStr_of_all hd (by omega), h10, h15⟩
      · intro n hn
        rw [← hs] at hn
        simp only [findDigitRuns, List.mem_filter, Bool.and_eq_true,
          decide_eq_true_eq, Bool.not_eq_true'] at hn
        obtain ⟨⟨-, ⟨hd, h7a⟩, h7b⟩, h784⟩ := hn
        exact ⟨h784, isDigitStr_of_all hd (by omega), by omega⟩

/-- Witness for C10: OCR text with an 11-digit number, a valid 7-digit
number and two `784`-prefixed numbers keeps exactly the first two. -/
theorem extract_attestation_numbers_witness :
    (∀ n ∈ ["12345678901".data], startsWith784 n = false ∧
      isDigitStr n = true ∧ 10 ≤ n.length ∧ n.length ≤ 15)
    ∧ (∀ n ∈ ["7654321".data], startsWith784 n = false ∧
      isDigitStr n = true ∧ n.length = 7) :=
  extract_attestation_numbers_spec.2
    "Cert 12345678901 ref 7654321 x 7841234".data
    ["12345678901".data] ["7654321".data] rfl

end Mohre
